import Mathlib

/-!
# Verification of `scripts/fetch_tuya.py`

A shallow embedding of the Tuya fetch script: the request signer
(`SimpleTuyaAPI._sign_request`), the token acquisition (`connect`), the
reading extractor (`extract_temp_humidity`), the per-device fetch loop of
`main`, and the output sinks (`send_to_storage`, `append_to_csv`, manifest
rewrite).  Python numbers are modelled as exact rationals (all values the
script manipulates — integers and integer tenths — are exactly
representable as binary floats, so rational arithmetic agrees with CPython
on them); Python `None` is a distinguished value; dictionaries returned by
the vendor are modelled by the result of the `.get` accesses the script
performs on them.
-/

namespace FetchTuya

/-- A Python scalar as it appears in a Tuya status point or reading: `None`,
a number (`int`/`float`, modelled as an exact rational), or a string.
`dict.get` on a missing key yields `PyVal.none`. -/
inductive PyVal where
  | none
  | num (q : ℚ)
  | str (s : String)
  deriving DecidableEq, Repr

/-- One status point as consumed by `extract_temp_humidity`: the script only
ever reads `dp.get("code")` and `dp.get("value")`, so a point is modelled by
those two results (a missing key gives `PyVal.none`, exactly as `dict.get`
does). -/
structure StatusPoint where
  code : PyVal
  value : PyVal
  deriving DecidableEq, Repr

/-- The temperature code tuple of line 120: `("temp_current", "temperature",
"va_temperature")`. -/
def tempCodes : List String := ["temp_current", "temperature", "va_temperature"]

/-- The humidity code tuple of line 127: `("humidity_value", "humidity",
"va_humidity")`. -/
def humidityCodes : List String := ["humidity_value", "humidity", "va_humidity"]

/-- Python `code in (s1, s2, s3)` where the tuple holds strings: only a
string value can compare equal; `None` or a number matches nothing. -/
def codeIn (code : PyVal) (codes : List String) : Bool :=
  match code with
  | .str s => codes.contains s
  | _ => false

/-- One iteration of the `for dp in status_result` loop of
`extract_temp_humidity` (lines 115–132), acting on the `(temp, humidity)`
state.  `isinstance(value, (int, float))` is the `PyVal.num` test; the
temperature rescale threshold is on `abs(value) > 50`, the humidity one on
`value > 100`. -/
def extractStep (st : PyVal × PyVal) (dp : StatusPoint) : PyVal × PyVal :=
  if codeIn dp.code tempCodes then
    match dp.value with
    | .num v => (.num (if 50 < |v| then v / 10 else v), st.2)
    | v => (v, st.2)
  else if codeIn dp.code humidityCodes then
    match dp.value with
    | .num v => (st.1, .num (if 100 < v then v / 10 else v))
    | v => (st.1, v)
  else st

/-- Model of `extract_temp_humidity` (lines 110–134): fold the loop body over the
status points, starting from `temp = None`, `humidity = None`. -/
def extract_temp_humidity (status_result : List StatusPoint) : PyVal × PyVal :=
  status_result.foldl extractStep (.none, .none)

example :
    extract_temp_humidity [⟨.str "temp_current", .num 235⟩] =
      (.num (47/2), .none) := by
  simp +decide [extract_temp_humidity, extractStep, codeIn, tempCodes, humidityCodes]
  norm_num

example :
    extract_temp_humidity [⟨.str "humidity", .num 455⟩] =
      (.none, .num (91/2)) := by
  simp +decide [extract_temp_humidity, extractStep, codeIn, tempCodes, humidityCodes]
  norm_num

example :
    extract_temp_humidity [⟨.str "humidity", .num (-150)⟩] =
      (.none, .num (-150)) := by
  simp +decide [extract_temp_humidity, extractStep, codeIn, tempCodes, humidityCodes]

example :
    extract_temp_humidity
      [⟨.str "temperature", .num 23⟩, ⟨.str "temperature", .none⟩] =
      (.none, .none) := by
  simp +decide [extract_temp_humidity, extractStep, codeIn, tempCodes, humidityCodes]

theorem codeIn_of_mem {c : String} {codes : List String} (h : c ∈ codes) :
    codeIn (.str c) codes = true := by
  simpa [codeIn] using h

theorem temp_not_humidity {c : String} (h : c ∈ tempCodes) :
    codeIn (.str c) humidityCodes = false := by
  fin_cases h <;> decide

theorem humidity_not_temp {c : String} (h : c ∈ humidityCodes) :
    codeIn (.str c) tempCodes = false := by
  fin_cases h <;> decide

/-- C2: for every numeric temperature value `v` carried by a recognized
temperature code, the extractor returns `v/10` when `|v| > 50` and `v`
unchanged otherwise; in particular 235 ↦ 23.5, 23 ↦ 23, and -60 ↦ -6.0 (the
threshold is on the absolute value, so it triggers on negative values too);
non-numeric values pass through unchanged. -/
theorem C2_temperature_scaling :
    (∀ c, c ∈ tempCodes → ∀ v : ℚ,
        extract_temp_humidity [⟨.str c, .num v⟩] =
          (.num (if 50 < |v| then v / 10 else v), .none))
    ∧ extract_temp_humidity [⟨.str "temp_current", .num 235⟩] = (.num (47/2), .none)
    ∧ extract_temp_humidity [⟨.str "temp_current", .num 23⟩] = (.num 23, .none)
    ∧ extract_temp_humidity [⟨.str "temp_current", .num (-60)⟩] = (.num (-6), .none)
    ∧ (∀ c, c ∈ tempCodes → ∀ v : PyVal, (∀ q : ℚ, v ≠ .num q) →
        extract_temp_humidity [⟨.str c, v⟩] = (v, .none)) := by
  refine ⟨?_, ?_, ?_, ?_, ?_⟩
  · intro c hc v
    simp [extract_temp_humidity, extractStep, codeIn_of_mem hc]
  · simp +decide [extract_temp_humidity, extractStep, codeIn, tempCodes, humidityCodes]
    norm_num
  · simp +decide [extract_temp_humidity, extractStep, codeIn, tempCodes, humidityCodes]
  · simp +decide [extract_temp_humidity, extractStep, codeIn, tempCodes, humidityCodes]
    norm_num
  · intro c hc v hv
    simp only [extract_temp_humidity, List.foldl_cons, List.foldl_nil, extractStep,
      codeIn_of_mem hc, if_true]

/-- Witness for C2 at concrete inputs: the general scaling rule at
`temp_current`/235 and the non-numeric pass-through at
`va_temperature`/`"off"`. -/
theorem C2_temperature_scaling_witness :
    extract_temp_humidity [⟨.str "temp_current", .num 235⟩] = (.num (47/2), .none)
    ∧ extract_temp_humidity [⟨.str "va_temperature", .str "off"⟩] = (.str "off", .none) := by
  constructor
  · have h := C2_temperature_scaling.1 "temp_current" (by decide) 235
    rw [h]; norm_num
  · exact C2_temperature_scaling.2.2.2.2 "va_temperature" (by decide) (.str "off")
      (fun q h => by simp at h)

/-- C3: for every numeric humidity value `v` carried by a recognized humidity
code, the extractor returns `v/10` only when `v > 100` (not on absolute
value): 455 ↦ 45.5, 45 ↦ 45, and -150 ↦ -150 unrescaled — the asymmetry with
the temperature threshold is preserved exactly. -/
theorem C3_humidity_scaling :
    (∀ c, c ∈ humidityCodes → ∀ v : ℚ,
        extract_temp_humidity [⟨.str c, .num v⟩] =
          (.none, .num (if 100 < v then v / 10 else v)))
    ∧ extract_temp_humidity [⟨.str "humidity", .num 455⟩] = (.none, .num (91/2))
    ∧ extract_temp_humidity [⟨.str "humidity", .num 45⟩] = (.none, .num 45)
    ∧ extract_temp_humidity [⟨.str "humidity", .num (-150)⟩] = (.none, .num (-150)) := by
  refine ⟨?_, ?_, ?_, ?_⟩
  · intro c hc v
    simp [extract_temp_humidity, extractStep, codeIn_of_mem hc, humidity_not_temp hc]
  · simp +decide [extract_temp_humidity, extractStep, codeIn, tempCodes, humidityCodes]
    norm_num
  · simp +decide [extract_temp_humidity, extractStep, codeIn, tempCodes, humidityCodes]
  · simp +decide [extract_temp_humidity, extractStep, codeIn, tempCodes, humidityCodes]

/-- Witness for C3: the general humidity rule applied at `humidity`/455. -/
theorem C3_humidity_scaling_witness :
    extract_temp_humidity [⟨.str "humidity", .num 455⟩] = (.none, .num (91/2)) := by
  have h := C3_humidity_scaling.1 "humidity" (by decide) 455
  rw [h]; norm_num

/-- C10 counterexample: the claim predicts that a point missing the `value`
key leaves the output unchanged, but a recognized-code point whose `value`
key is missing (`dp.get("value")` is `None`) overwrites a previously
extracted temperature with `None`. -/
theorem C10_counterexample :
    extract_temp_humidity
        [⟨.str "temperature", .num 23⟩, ⟨.str "temperature", .none⟩] =
      (.none, .none)
    ∧ extract_temp_humidity
        [⟨.str "temperature", .num 23⟩, ⟨.str "temperature", .none⟩] ≠
      (.num 23, .none) := by
  constructor
  · simp +decide [extract_temp_humidity, extractStep, codeIn, tempCodes, humidityCodes]
  · simp +decide [extract_temp_humidity, extractStep, codeIn, tempCodes, humidityCodes]

/-- C10 (amended): extraction is total over malformed points and raises no
exception; a point missing the `code` key matches no recognized set and
leaves the output unchanged, but a point with a recognized code and a missing
`value` key sets the corresponding output to `None` (possibly overwriting an
earlier value) rather than leaving it unchanged. -/
theorem C10_missing_keys :
    (∀ st v, extractStep st ⟨.none, v⟩ = st)
    ∧ (∀ st c, c ∈ tempCodes → extractStep st ⟨.str c, .none⟩ = (.none, st.2))
    ∧ (∀ st c, c ∈ humidityCodes → extractStep st ⟨.str c, .none⟩ = (st.1, .none)) := by
  refine ⟨?_, ?_, ?_⟩
  · intro st v
    simp [extractStep, codeIn]
  · intro st c hc
    simp [extractStep, codeIn_of_mem hc]
  · intro st c hc
    simp [extractStep, codeIn_of_mem hc, humidity_not_temp hc]

/-- Witness for the amended C10 at a concrete state and point. -/
theorem C10_missing_keys_witness :
    extractStep (.num 23, .num 45) ⟨.none, .num 7⟩ = (.num 23, .num 45)
    ∧ extractStep (.num 23, .num 45) ⟨.str "temperature", .none⟩ = (.none, .num 45) :=
  ⟨C10_missing_keys.1 (.num 23, .num 45) (.num 7),
   C10_missing_keys.2.1 (.num 23, .num 45) "temperature" (by decide)⟩

/-! ## The API client (`SimpleTuyaAPI`, lines 36–108)

Network and JSON parsing are external to the script, so `connect` is modelled
as a function of the parsed token response.  `response.json()` raising maps to
`TokenResponse.notJson`; otherwise the script reads `result.get("success")`
(truthiness, modelled as a `Bool`) and `result["result"]["access_token"]`
(`Option String`; `Option.none` means one of those keys is missing, in which
case the subscript raises an uncaught `KeyError`).  A Python-level uncaught
exception is the `Option.none` outcome of the model. -/

/-- The mutable state of a `SimpleTuyaAPI` instance (lines 37–41). -/
structure SimpleTuyaAPI where
  endpoint : String
  access_id : String
  access_key : String
  token : Option String
  deriving DecidableEq, Repr

/-- Model of `SimpleTuyaAPI.__init__` (lines 37–41): `self.token = None`. -/
def SimpleTuyaAPI.mk0 (endpoint access_id access_key : String) : SimpleTuyaAPI :=
  ⟨endpoint, access_id, access_key, Option.none⟩

/-- The token response as `connect` consumes it. -/
inductive TokenResponse where
  | notJson
  | json (success : Bool) (access_token : Option String)
  deriving DecidableEq, Repr

/-- Model of `connect` (lines 73–94): returns `some (True/False, new state)` as the
Python method returns, or `Option.none` when the method raises (a `KeyError`
on `result["result"]["access_token"]` when `success` is truthy but the token
field is absent). -/
def connect (api : SimpleTuyaAPI) (resp : TokenResponse) :
    Option (Bool × SimpleTuyaAPI) :=
  match resp with
  | .notJson => some (false, api)
  | .json success tok =>
    if success then
      match tok with
      | some t => some (true, { api with token := some t })
      | Option.none => Option.none
    else some (false, api)

/-- C4: `connect()` succeeds exactly when the parsed response reports success
and contains a token field, storing the token and returning success; on any
failure (non-JSON body, unsuccessful status) it returns failure and leaves
the token unset. -/
theorem C4_connect (api : SimpleTuyaAPI) (resp : TokenResponse)
    (hinit : api.token = Option.none) :
    (∀ t, resp = .json true (some t) →
        connect api resp = some (true, { api with token := some t }))
    ∧ (∀ b api2, connect api resp = some (b, api2) →
        ((b = true ↔ ∃ t, resp = .json true (some t) ∧ api2.token = some t)
         ∧ (b = false → api2.token = Option.none))) := by
  constructor
  · rintro t rfl
    simp [connect]
  · intro b api2 h
    match resp with
    | .notJson =>
      simp only [connect, Option.some.injEq, Prod.mk.injEq] at h
      constructor
      · constructor
        · rintro rfl; exact absurd h.1.symm (by simp)
        · rintro ⟨t, ht, _⟩; exact absurd ht (by simp)
      · rintro rfl; rw [← h.2, hinit]
    | .json success tok =>
      match success, tok with
      | true, some t =>
        simp only [connect, if_true, Option.some.injEq, Prod.mk.injEq] at h
        refine ⟨⟨fun _ => ⟨t, rfl, ?_⟩, fun _ => h.1.symm⟩, fun hb => ?_⟩
        · rw [← h.2]
        · rw [hb] at h; exact absurd h.1.symm (by simp)
      | true, Option.none => simp [connect] at h
      | false, _ =>
        simp only [connect, if_false, Option.some.injEq, Prod.mk.injEq,
          Bool.false_eq_true] at h
        refine ⟨⟨fun hb => absurd h.1.symm (by rw [hb]; simp), ?_⟩,
          fun _ => by rw [← h.2, hinit]⟩
        rintro ⟨t, ht, _⟩; exact absurd ht (by simp)

/-- Witness for C4: a fresh client against a successful token response and
against an unsuccessful one. -/
theorem C4_connect_witness :
    connect (SimpleTuyaAPI.mk0 "https://openapi.tuyaeu.com" "id" "key")
        (.json true (some "tok")) =
      some (true, ⟨"https://openapi.tuyaeu.com", "id", "key", some "tok"⟩)
    ∧ (SimpleTuyaAPI.mk0 "https://openapi.tuyaeu.com" "id" "key").token =
      Option.none := by
  constructor
  · exact (C4_connect (SimpleTuyaAPI.mk0 "https://openapi.tuyaeu.com" "id" "key")
      (.json true (some "tok")) rfl).1 "tok" rfl
  · exact ((C4_connect (SimpleTuyaAPI.mk0 "https://openapi.tuyaeu.com" "id" "key")
      (.json false Option.none) rfl).2 false
      (SimpleTuyaAPI.mk0 "https://openapi.tuyaeu.com" "id" "key") rfl).2 rfl

/-! ## The per-device loop of `main` (lines 180–206)

`main` captures one `timestamp` string at line 162 before any network call
and iterates the fixed device list.  Each `api.get(...)` outcome is modelled
per device: `DeviceResp.notSuccess` covers both a parsed body whose
`success` field is falsy or absent and the synthetic
`{"success": False, ...}` that `get` substitutes for a non-JSON body;
`DeviceResp.ok pts` is a successful body whose `result` is the list of
status points. -/

/-- One reading dict as built at lines 195–200. -/
structure Reading where
  timestamp : String
  device_id : String
  temperature_c : PyVal
  humidity_percent : PyVal
  deriving DecidableEq, Repr

/-- The outcome of `api.get(f"/v1.0/devices/{id}/status")` for one device. -/
inductive DeviceResp where
  | notSuccess
  | ok (result : List StatusPoint)
  deriving DecidableEq, Repr

/-- The body of one iteration of the device loop (lines 183–206): the
readings (none or one) this device contributes to `all_readings`.  A
`notSuccess` response hits the `continue` at line 190; otherwise the reading
is appended exactly when `temp is not None and humidity is not None`. -/
def deviceReadings (timestamp device_id : String) (resp : DeviceResp) :
    List Reading :=
  match resp with
  | .notSuccess => []
  | .ok pts =>
    let th := extract_temp_humidity pts
    if th.1 ≠ PyVal.none ∧ th.2 ≠ PyVal.none then
      [⟨timestamp, device_id, th.1, th.2⟩]
    else []

/-- The whole device loop: `all_readings` after iterating the device list in
order, each device paired with its fetch outcome. -/
def fetchLoop (timestamp : String) :
    List (String × DeviceResp) → List Reading
  | [] => []
  | (d, resp) :: rest => deviceReadings timestamp d resp ++ fetchLoop timestamp rest

/-- C5: a device contributes a Reading to the batch iff both a temperature
and a humidity were extracted; a device whose status yields `(None, None)`
(in particular one with no recognized codes) or only one of the two is
skipped and contributes nothing, and a failed status fetch is skipped,
without aborting the run. -/
theorem C5_reading_iff_both :
    (∀ ts d pts rest,
      (extract_temp_humidity pts).1 ≠ PyVal.none →
      (extract_temp_humidity pts).2 ≠ PyVal.none →
        fetchLoop ts ((d, .ok pts) :: rest) =
          ⟨ts, d, (extract_temp_humidity pts).1, (extract_temp_humidity pts).2⟩ ::
            fetchLoop ts rest)
    ∧ (∀ ts d pts rest,
        ((extract_temp_humidity pts).1 = PyVal.none ∨
         (extract_temp_humidity pts).2 = PyVal.none) →
          fetchLoop ts ((d, .ok pts) :: rest) = fetchLoop ts rest)
    ∧ (∀ ts d rest, fetchLoop ts ((d, .notSuccess) :: rest) = fetchLoop ts rest)
    ∧ (∀ pts, (∀ dp ∈ pts, codeIn dp.code tempCodes = false ∧
                codeIn dp.code humidityCodes = false) →
        extract_temp_humidity pts = (PyVal.none, PyVal.none)) := by
  refine ⟨?_, ?_, ?_, ?_⟩
  · intro ts d pts rest h1 h2
    simp [fetchLoop, deviceReadings, h1, h2]
  · intro ts d pts rest h
    rcases h with h | h <;> simp [fetchLoop, deviceReadings, h]
  · intro ts d rest
    simp [fetchLoop, deviceReadings]
  · intro pts h
    have step : ∀ st : PyVal × PyVal, ∀ dp ∈ pts, extractStep st dp = st := by
      intro st dp hdp
      simp [extractStep, (h dp hdp).1, (h dp hdp).2]
    rw [extract_temp_humidity]
    induction pts with
    | nil => rfl
    | cons dp rest ih =>
      rw [List.foldl_cons, step _ dp (by simp)]
      exact ih (fun p hp => h p (by simp [hp])) (fun st p hp => step st p (by simp [hp]))

/-- Witness for C5: one device with both quantities, one with only a
temperature, one failed fetch, one with no recognized codes. -/
theorem C5_reading_iff_both_witness :
    fetchLoop "2026-01-01 00:00:00" [("dev1", .ok
        [⟨.str "temp_current", .num 21⟩, ⟨.str "humidity", .num 50⟩])] =
      [⟨"2026-01-01 00:00:00", "dev1", .num 21, .num 50⟩]
    ∧ fetchLoop "2026-01-01 00:00:00"
        [("dev2", .ok [⟨.str "temp_current", .num 21⟩])] = []
    ∧ fetchLoop "2026-01-01 00:00:00" [("dev3", .notSuccess)] = []
    ∧ extract_temp_humidity [⟨.str "switch", .num 1⟩] =
        (PyVal.none, PyVal.none) := by
  refine ⟨?_, ?_, ?_, ?_⟩
  · have h := C5_reading_iff_both.1 "2026-01-01 00:00:00" "dev1"
      [⟨.str "temp_current", .num 21⟩, ⟨.str "humidity", .num 50⟩] []
      (by decide) (by decide)
    rw [h]; decide
  · exact C5_reading_iff_both.2.1 "2026-01-01 00:00:00" "dev2"
      [⟨.str "temp_current", .num 21⟩] [] (by decide)
  · exact C5_reading_iff_both.2.2.1 "2026-01-01 00:00:00" "dev3" []
  · exact C5_reading_iff_both.2.2.2 [⟨.str "switch", .num 1⟩] (by decide)

/-- C9: every Reading produced by one run of the device loop carries the one
timestamp string captured at the start of `main` (line 162), whatever each
device returned. -/
theorem C9_single_timestamp (ts : String) (devs : List (String × DeviceResp))
    (r : Reading) (hr : r ∈ fetchLoop ts devs) : r.timestamp = ts := by
  induction devs with
  | nil => simp [fetchLoop] at hr
  | cons p rest ih =>
    obtain ⟨d, resp⟩ := p
    rw [fetchLoop, List.mem_append] at hr
    rcases hr with hr | hr
    · match resp with
      | .notSuccess => simp [deviceReadings] at hr
      | .ok pts =>
        rw [deviceReadings] at hr
        split at hr
        · simp at hr; rw [hr]
        · simp at hr
    · exact ih hr

/-- Witness for C9 at a concrete run. -/
theorem C9_single_timestamp_witness :
    (⟨"2026-01-01 00:00:00", "dev1", .num 21, .num 50⟩ : Reading).timestamp =
      "2026-01-01 00:00:00" :=
  C9_single_timestamp "2026-01-01 00:00:00"
    [("dev1", .ok [⟨.str "temp_current", .num 21⟩, ⟨.str "humidity", .num 50⟩])]
    ⟨"2026-01-01 00:00:00", "dev1", .num 21, .num 50⟩ (by decide)

/-! ## Output sinks (lines 136–159 and 208–241)

The filesystem is modelled as an association list from full path to file
content; `os.path.exists`, reading, and whole-content rewriting act on it.
The storage POST's network behaviour is a parameter (`PostOutcome`): either
a response with a status code or a raised exception.  `str()` of a reading
value is modelled for the values the script produces (integers, and integer
tenths coming out of the `/ 10.0` rescale). -/

/-- Model of `str(v)` as the f-string of line 158 renders a reading value: `None`,
the string itself, an integer without a decimal point, or an integer number
of tenths with one fractional digit (the only non-integers the script can
produce, e.g. `23.5`). -/
def pyRepr (v : PyVal) : String :=
  match v with
  | .none => "None"
  | .str s => s
  | .num q =>
    if q.den = 1 then toString q.num
    else
      let n := (q * 10).num
      (if n < 0 then "-" else "") ++ toString (n.natAbs / 10) ++ "." ++
        toString (n.natAbs % 10)

/-- An observable output action of the run's tail. -/
inductive Event where
  | posted (status : Nat)
  | storageError (msg : String)
  | log (s : String)
  deriving DecidableEq, Repr

/-- What `requests.post(STORAGE_URL, ...)` does on this run: answer with a
status code, or raise (network error, timeout). -/
inductive PostOutcome where
  | ok (status : Nat)
  | exn (msg : String)
  deriving DecidableEq, Repr

/-- Model of `send_to_storage` (lines 136–143): nothing when no URL is configured
(`if STORAGE_URL:` — the empty string is falsy); otherwise the status line,
or the caught-and-logged exception.  Totality of this function is the
never-propagated guarantee of the `try`/`except`. -/
def send_to_storage (storageURL : String) (outcome : PostOutcome) : List Event :=
  if storageURL = "" then []
  else
    match outcome with
    | .ok s => [.posted s]
    | .exn e => [.storageError e]

/-- The filesystem under the script: full path ↦ file content. -/
structure FS where
  files : List (String × String)
  deriving DecidableEq, Repr

/-- Read a file's content, `Option.none` when the path is absent. -/
def FS.read (fs : FS) (p : String) : Option String :=
  (fs.files.find? (fun e => e.1 == p)).map Prod.snd

/-- Model of `os.path.exists` (line 153). -/
def FS.pathExists (fs : FS) (p : String) : Bool :=
  (fs.read p).isSome

/-- Leave a file holding exactly `c` (create or overwrite): the path maps to
`c` and every other path keeps its content (entry order carries no meaning —
`listdir` output is filtered and sorted before use, as the script does). -/
def FS.write (fs : FS) (p c : String) : FS :=
  ⟨(p, c) :: fs.files.filter fun e => e.1 != p⟩

/-- Model of `os.listdir` restricted to `dir`: the names under `dir/`. -/
def FS.listdir (fs : FS) (dir : String) : List String :=
  (fs.files.map Prod.fst).filterMap fun p =>
    if p.startsWith (dir ++ "/") then some (p.drop (dir.length + 1)) else Option.none

/-- The fixed header line of `append_to_csv` (line 152). -/
def csvHeader : String := "timestamp,device_id,temperature_c,humidity_percent\n"

/-- One data line of `append_to_csv` (line 158). -/
def csvLine (r : Reading) : String :=
  r.timestamp ++ "," ++ r.device_id ++ "," ++ pyRepr r.temperature_c ++ "," ++
    pyRepr r.humidity_percent ++ "\n"

/-- The data lines the loop of lines 157–159 appends. -/
def csvBody (rows : List Reading) : String :=
  String.join (rows.map csvLine)

/-- Model of `append_to_csv` (lines 151–159): open in append mode, write the header
only when the file did not previously exist, then one line per reading. -/
def append_to_csv (fs : FS) (csv_path : String) (rows : List Reading) : FS :=
  let ex := fs.pathExists csv_path
  let old := (fs.read csv_path).getD ""
  fs.write csv_path (old ++ (if ex then "" else csvHeader) ++ csvBody rows)

/-- Model of `json.dump` of a list of filenames with the default separators. -/
def jsonArray (files : List String) : String :=
  "[" ++ String.intercalate ", " (files.map fun f => "\"" ++ f ++ "\"") ++ "]"

/-- Insertion into a ≤-sorted list of strings. -/
def insertSorted (x : String) : List String → List String
  | [] => [x]
  | y :: ys => if x ≤ y then x :: y :: ys else y :: insertSorted x ys

/-- Python `sorted` on strings (lexicographic). -/
def sortStrings (l : List String) : List String :=
  l.foldr insertSorted []

/-- The manifest rewrite of lines 226–231: list the `TROFICDORD*.csv` files
of the output directory, sort, overwrite `manifest.json`; any exception is
caught and logged (`manifestFails` selects the except branch). -/
def updateManifest (fs : FS) (outdir : String) (manifestFails : Bool) :
    FS × List Event :=
  if manifestFails then
    (fs, [.log "Could not update manifest on main branch"])
  else
    let files := sortStrings ((fs.listdir outdir).filter fun f =>
      f.startsWith "TROFICDORD" && f.endsWith ".csv")
    (fs.write (outdir ++ "/manifest.json") (jsonArray files), [])

/-- The run's external knobs for the output phase: the optional storage URL,
what the POST would do, the calendar date `YYYYMMDD`, and whether the
manifest write raises. -/
structure OutputEnv where
  storageURL : String
  postOutcome : PostOutcome
  today : String
  manifestFails : Bool
  deriving DecidableEq, Repr

/-- The tail of `main` after the summary (lines 212–241): when at least one
reading was collected, send to storage, append the daily CSV, rewrite the
manifest, and return 0; with zero readings skip every output step and still
return 0.  Returns (exit code, filesystem, events). -/
def outputPhase (env : OutputEnv) (all_readings : List Reading) (fs : FS) :
    Nat × FS × List Event :=
  if all_readings.isEmpty then
    (0, fs, [.log "No readings collected; nothing to write."])
  else
    let storageEvents := send_to_storage env.storageURL env.postOutcome
    let csv_path := "data" ++ "/" ++ ("TROFICDORD" ++ env.today ++ ".csv")
    let fs1 := append_to_csv fs csv_path all_readings
    let manifest := updateManifest fs1 "data" env.manifestFails
    (0, manifest.1,
      storageEvents ++ [.log ("Wrote/updated CSV: " ++ csv_path)] ++ manifest.2)

theorem str_empty_append (s : String) : "" ++ s = s := by
  cases s
  rfl

theorem str_append_assoc (a b c : String) : a ++ b ++ c = a ++ (b ++ c) := by
  cases a; cases b; cases c
  show String.mk _ = String.mk _
  rw [List.append_assoc]

theorem FS.read_write (fs : FS) (p c : String) : (fs.write p c).read p = some c := by
  simp [FS.read, FS.write]

/-- Reading back the path `append_to_csv` wrote: the old content (empty on a
fresh file), the header exactly when the file did not previously exist, then
the data lines. -/
theorem append_to_csv_read (fs : FS) (p : String) (rows : List Reading) :
    (append_to_csv fs p rows).read p =
      some ((fs.read p).getD "" ++
        (if fs.pathExists p then "" else csvHeader) ++ csvBody rows) := by
  rw [append_to_csv, FS.read_write]

/-- C7: with zero collected readings every output step is skipped — the
filesystem is untouched (no CSV created or modified, no manifest written),
no storage POST happens (the only event is the log line) — and the exit
code is still 0. -/
theorem C7_zero_readings (env : OutputEnv) (fs : FS) :
    outputPhase env [] fs =
      (0, fs, [Event.log "No readings collected; nothing to write."]) := by
  rw [outputPhase]
  rfl

/-- C6: on a run with at least one reading and a configured storage URL, an
exception raised by the storage POST is caught and logged (the
`storageError` event), never propagated; the filesystem still receives the
CSV append and the manifest rewrite — the same filesystem any other POST
outcome yields — and the exit code is 0. -/
theorem C6_storage_exception_isolated (env : OutputEnv) (e : String)
    (rs : List Reading) (fs : FS) (h1 : rs ≠ [])
    (h2 : env.storageURL ≠ "") (h3 : env.postOutcome = .exn e) :
    (outputPhase env rs fs).1 = 0
    ∧ Event.storageError e ∈ (outputPhase env rs fs).2.2
    ∧ (outputPhase env rs fs).2.1 =
        (updateManifest
          (append_to_csv fs ("data" ++ "/" ++ ("TROFICDORD" ++ env.today ++ ".csv")) rs)
          "data" env.manifestFails).1
    ∧ (∀ o : PostOutcome,
        (outputPhase { env with postOutcome := o } rs fs).2.1 =
          (outputPhase env rs fs).2.1) := by
  have hne : rs.isEmpty = false := by simpa [List.isEmpty_iff] using h1
  refine ⟨?_, ?_, ?_, ?_⟩
  · simp [outputPhase, hne]
  · simp [outputPhase, hne, send_to_storage, h2, h3]
  · simp [outputPhase, hne]
  · intro o
    simp [outputPhase, hne]

/-- Witness for C6 at a concrete run: one reading, a configured URL, a
raising POST. -/
theorem C6_storage_exception_isolated_witness :
    (outputPhase ⟨"https://store.example", .exn "timeout", "20260101", false⟩
        [⟨"2026-01-01 00:00:00", "dev1", .num 21, .num 50⟩] ⟨[]⟩).1 = 0
    ∧ Event.storageError "timeout" ∈
        (outputPhase ⟨"https://store.example", .exn "timeout", "20260101", false⟩
          [⟨"2026-01-01 00:00:00", "dev1", .num 21, .num 50⟩] ⟨[]⟩).2.2
    ∧ (outputPhase ⟨"https://store.example", .ok 200, "20260101", false⟩
          [⟨"2026-01-01 00:00:00", "dev1", .num 21, .num 50⟩] ⟨[]⟩).2.1 =
        (outputPhase ⟨"https://store.example", .exn "timeout", "20260101", false⟩
          [⟨"2026-01-01 00:00:00", "dev1", .num 21, .num 50⟩] ⟨[]⟩).2.1 := by
  have h := C6_storage_exception_isolated
    ⟨"https://store.example", .exn "timeout", "20260101", false⟩ "timeout"
    [⟨"2026-01-01 00:00:00", "dev1", .num 21, .num 50⟩] ⟨[]⟩
    (by simp) (by simp) rfl
  exact ⟨h.1, h.2.1, h.2.2.2 (.ok 200)⟩

/-- C8: the CSV append writes the fixed header line only when the file did
not previously exist, then one data line per reading; two runs appending to
the same (initially absent) file leave one header followed by the two
batches of data lines. -/
theorem C8_csv_header_once :
    (∀ fs p rows, fs.read p = Option.none →
        (append_to_csv fs p rows).read p = some (csvHeader ++ csvBody rows))
    ∧ (∀ fs p rows old, fs.read p = some old →
        (append_to_csv fs p rows).read p = some (old ++ csvBody rows))
    ∧ (∀ fs p rows1 rows2, fs.read p = Option.none →
        (append_to_csv (append_to_csv fs p rows1) p rows2).read p =
          some (csvHeader ++ (csvBody rows1 ++ csvBody rows2))) := by
  have h1 : ∀ (fs : FS) (p : String) (rows : List Reading),
      fs.read p = Option.none →
      (append_to_csv fs p rows).read p = some (csvHeader ++ csvBody rows) := by
    intro fs p rows h
    rw [append_to_csv_read, h]
    simp [FS.pathExists, h, str_empty_append]
  have h2 : ∀ (fs : FS) (p : String) (rows : List Reading) (old : String),
      fs.read p = some old →
      (append_to_csv fs p rows).read p = some (old ++ csvBody rows) := by
    intro fs p rows old h
    rw [append_to_csv_read, h]
    simp [FS.pathExists, h]
  refine ⟨h1, h2, ?_⟩
  intro fs p rows1 rows2 h
  rw [h2 _ _ _ _ (h1 fs p rows1 h), str_append_assoc]

/-- Witness for C8: two appends of one reading each to a fresh filesystem. -/
theorem C8_csv_header_once_witness :
    (append_to_csv
        (append_to_csv ⟨[]⟩ "data/TROFICDORD20260101.csv"
          [⟨"2026-01-01 08:00:00", "dev1", .num 21, .num 50⟩])
        "data/TROFICDORD20260101.csv"
        [⟨"2026-01-01 20:00:00", "dev1", .num 22, .num 51⟩]).read
      "data/TROFICDORD20260101.csv" =
    some (csvHeader ++
      (csvBody [⟨"2026-01-01 08:00:00", "dev1", .num 21, .num 50⟩] ++
       csvBody [⟨"2026-01-01 20:00:00", "dev1", .num 22, .num 51⟩])) :=
  C8_csv_header_once.2.2 ⟨[]⟩ "data/TROFICDORD20260101.csv"
    [⟨"2026-01-01 08:00:00", "dev1", .num 21, .num 50⟩]
    [⟨"2026-01-01 20:00:00", "dev1", .num 22, .num 51⟩] rfl

/-! ## The Signer (`SimpleTuyaAPI._sign_request`, lines 43–71)

`hashlib.sha256` and `hmac.new(..., hashlib.sha256)` are embedded in full
(FIPS 180-4 / RFC 2104, which those library calls implement), over byte
lists (each entry < 256).  The textual inputs — method, path, access id,
access key, token — are modelled by their encoded byte strings: Python
concatenates `str` values and calls `.encode()` once, and UTF-8 encoding
maps concatenation to concatenation, so building the byte string directly
is the same computation.  The hex digest interpolated into the canonical
string is ASCII, whose encoding is `Char.toNat` per character. -/

/-- Truncation to a 32-bit word. -/
def w32 (n : Nat) : Nat := n % 4294967296

/-- FIPS 180-4 `ROTR^n` on 32-bit words. -/
def rotr (n w : Nat) : Nat :=
  ((w % 4294967296) >>> n) ||| ((w % 2 ^ n) <<< (32 - n))

/-- Bitwise complement on 32-bit words. -/
def not32 (x : Nat) : Nat := 4294967295 ^^^ (x % 4294967296)

/-- FIPS 180-4 `Ch`. -/
def ch (x y z : Nat) : Nat := (x &&& y) ^^^ (not32 x &&& z)

/-- FIPS 180-4 `Maj`. -/
def maj (x y z : Nat) : Nat := (x &&& y) ^^^ (x &&& z) ^^^ (y &&& z)

/-- FIPS 180-4 `Σ₀`. -/
def bigSigma0 (x : Nat) : Nat := rotr 2 x ^^^ rotr 13 x ^^^ rotr 22 x

/-- FIPS 180-4 `Σ₁`. -/
def bigSigma1 (x : Nat) : Nat := rotr 6 x ^^^ rotr 11 x ^^^ rotr 25 x

/-- FIPS 180-4 `σ₀`. -/
def smallSigma0 (x : Nat) : Nat := rotr 7 x ^^^ rotr 18 x ^^^ (x >>> 3)

/-- FIPS 180-4 `σ₁`. -/
def smallSigma1 (x : Nat) : Nat := rotr 17 x ^^^ rotr 19 x ^^^ (x >>> 10)

/-- The 64 SHA-256 round constants (FIPS 180-4 §4.2.2, in decimal). -/
def sha256K : List Nat :=
  [1116352408, 1899447441, 3049323471, 3921009573,
   961987163, 1508970993, 2453635748, 2870763221,
   3624381080, 310598401, 607225278, 1426881987,
   1925078388, 2162078206, 2614888103, 3248222580,
   3835390401, 4022224774, 264347078, 604807628,
   770255983, 1249150122, 1555081692, 1996064986,
   2554220882, 2821834349, 2952996808, 3210313671,
   3336571891, 3584528711, 113926993, 338241895,
   666307205, 773529912, 1294757372, 1396182291,
   1695183700, 1986661051, 2177026350, 2456956037,
   2730485921, 2820302411, 3259730800, 3345764771,
   3516065817, 3600352804, 4094571909, 275423344,
   430227734, 506948616, 659060556, 883997877,
   958139571, 1322822218, 1537002063, 1747873779,
   1955562222, 2024104815, 2227730452, 2361852424,
   2428436474, 2756734187, 3204031479, 3329325298]

/-- The eight 32-bit words of a SHA-256 chaining value. -/
structure Hash8 where
  a : Nat
  b : Nat
  c : Nat
  d : Nat
  e : Nat
  f : Nat
  g : Nat
  h : Nat
  deriving DecidableEq, Repr

/-- The SHA-256 initial hash value (FIPS 180-4 §5.3.3, in decimal). -/
def sha256H0 : Hash8 :=
  ⟨1779033703, 3144134277, 1013904242, 2773480762,
   1359893119, 2600822924, 528734635, 1541459225⟩

/-- Big-endian 8-byte rendering of the bit length. -/
def lenBytes8 (n : Nat) : List Nat :=
  [(n >>> 56) % 256, (n >>> 48) % 256, (n >>> 40) % 256, (n >>> 32) % 256,
   (n >>> 24) % 256, (n >>> 16) % 256, (n >>> 8) % 256, n % 256]

/-- SHA-256 padding: `0x80`, zeros to 56 mod 64, the 64-bit bit length. -/
def padMessage (msg : List Nat) : List Nat :=
  msg ++ [128] ++ List.replicate ((55 + 64 - msg.length % 64) % 64) 0 ++
    lenBytes8 (8 * msg.length)

/-- Split into 64-byte blocks. -/
def toBlocks : List Nat → List (List Nat)
  | [] => []
  | b :: rest => ((b :: rest).take 64) :: toBlocks ((b :: rest).drop 64)
  termination_by l => l.length
  decreasing_by simp; omega

/-- The first 16 words of the message schedule, big-endian from the block. -/
def toWords16 (block : List Nat) : List Nat :=
  (List.range 16).map fun i =>
    block.getD (4 * i) 0 * 16777216 + block.getD (4 * i + 1) 0 * 65536 +
      block.getD (4 * i + 2) 0 * 256 + block.getD (4 * i + 3) 0

/-- The next message-schedule word from the last 16. -/
def nextW (w : List Nat) : Nat :=
  w32 (smallSigma1 (w.getD (w.length - 2) 0) + w.getD (w.length - 7) 0 +
       smallSigma0 (w.getD (w.length - 15) 0) + w.getD (w.length - 16) 0)

/-- The full 64-word message schedule of one block. -/
def schedule (block : List Nat) : List Nat :=
  (List.range 48).foldl (fun w _ => w ++ [nextW w]) (toWords16 block)

/-- One SHA-256 round, fed one `(Kᵢ, Wᵢ)` pair. -/
def roundStep (st : Hash8) (kw : Nat × Nat) : Hash8 :=
  let t1 := w32 (st.h + bigSigma1 st.e + ch st.e st.f st.g + kw.1 + kw.2)
  let t2 := w32 (bigSigma0 st.a + maj st.a st.b st.c)
  ⟨w32 (t1 + t2), st.a, st.b, st.c, w32 (st.d + t1), st.e, st.f, st.g⟩

/-- Compress one 64-byte block into the chaining value. -/
def compressBlock (hv : Hash8) (block : List Nat) : Hash8 :=
  let st := (sha256K.zip (schedule block)).foldl roundStep hv
  ⟨w32 (hv.a + st.a), w32 (hv.b + st.b), w32 (hv.c + st.c), w32 (hv.d + st.d),
   w32 (hv.e + st.e), w32 (hv.f + st.f), w32 (hv.g + st.g), w32 (hv.h + st.h)⟩

/-- Big-endian bytes of one 32-bit word. -/
def wordBytes (w : Nat) : List Nat :=
  [(w >>> 24) % 256, (w >>> 16) % 256, (w >>> 8) % 256, w % 256]

/-- The 32 digest bytes of a chaining value. -/
def Hash8.bytes (hv : Hash8) : List Nat :=
  wordBytes hv.a ++ wordBytes hv.b ++ wordBytes hv.c ++ wordBytes hv.d ++
  wordBytes hv.e ++ wordBytes hv.f ++ wordBytes hv.g ++ wordBytes hv.h

/-- Model of `hashlib.sha256(msg).digest()` over a byte list. -/
def sha256 (msg : List Nat) : List Nat :=
  ((toBlocks (padMessage msg)).foldl compressBlock sha256H0).bytes

/-- Model of `hmac.new(key, msg, hashlib.sha256).digest()` (RFC 2104, block size
64). -/
def hmacSha256 (key msg : List Nat) : List Nat :=
  let k0 := if 64 < key.length then sha256 key else key
  let kp := k0 ++ List.replicate (64 - k0.length) 0
  sha256 ((kp.map fun b => b ^^^ 92) ++
    sha256 ((kp.map fun b => b ^^^ 54) ++ msg))

/-- One lowercase hex digit, as `hexdigest()` renders a nibble. -/
def hexChar (n : Nat) : Char :=
  match n with
  | 0 => '0' | 1 => '1' | 2 => '2' | 3 => '3' | 4 => '4'
  | 5 => '5' | 6 => '6' | 7 => '7' | 8 => '8' | 9 => '9'
  | 10 => 'a' | 11 => 'b' | 12 => 'c' | 13 => 'd' | 14 => 'e' | 15 => 'f'
  | _ => '0'

/-- Model of `.hexdigest()`: two lowercase hex digits per byte. -/
def bytesToHex : List Nat → List Char
  | [] => []
  | b :: bs => hexChar (b / 16) :: hexChar (b % 16) :: bytesToHex bs

/-- Model of `.encode()` of an ASCII string, per character. -/
def asciiBytes (cs : List Char) : List Nat := cs.map Char.toNat

/-- Python `str.upper()` on ASCII text, per character. -/
def pyUpper (cs : List Char) : List Char := cs.map Char.toUpper

/-- Model of `str(int(time.time() * 1000))`: the decimal digits of the millisecond
timestamp, encoded. -/
def decimalAscii (tMillis : Nat) : List Nat := asciiBytes (toString tMillis).data

/-- The header dict `_sign_request` returns (lines 65–71). -/
structure SignHeaders where
  client_id : List Nat
  sign : List Char
  t : Nat
  sign_method : String
  access_token : List Nat
  deriving DecidableEq, Repr

/-- Model of `_sign_request` (lines 43–71): build
`str_to_sign = method + "\n" + sha256-hex(body or b"") + "\n" + "\n" + path`,
then `sign_str = access_id + (token or "") + t + str_to_sign`, then HMAC-SHA256
keyed by `access_key`, hex digest uppercased.  `body = Option.none` covers a
falsy body (`if body:`), whose branch hashes the empty byte string. -/
def sign_request (access_id access_key : List Nat) (token : Option (List Nat))
    (tMillis : Nat) (method path : List Nat) (body : Option (List Nat)) :
    SignHeaders :=
  let str_to_sign := method ++ [10] ++
    asciiBytes (bytesToHex (sha256
      (match body with | some content => content | Option.none => []))) ++
    [10] ++ [10] ++ path
  let sign_str := access_id ++
    (match token with | some tk => tk | Option.none => []) ++
    decimalAscii tMillis ++ str_to_sign
  { client_id := access_id
    sign := pyUpper (bytesToHex (hmacSha256 access_key sign_str))
    t := tMillis
    sign_method := "HMAC-SHA256"
    access_token := match token with | some tk => tk | Option.none => [] }

/-- The canonical string as §4.1 of the spec words it: method + newline +
hex-SHA-256 of the body (or of the empty byte string if no body) + newline +
newline (empty header block) + path. -/
def specCanonicalString (method path : List Nat) (body : Option (List Nat)) :
    List Nat :=
  method ++ [10] ++ asciiBytes (bytesToHex (sha256 (body.getD []))) ++
    [10] ++ [10] ++ path

/-- The signature as the spec words it: prepend access-id + token-or-empty +
millisecond timestamp to the canonical string, HMAC-SHA-256 keyed by the
access secret, digest as uppercase hexadecimal. -/
def specSignature (access_id access_key : List Nat) (token : Option (List Nat))
    (tMillis : Nat) (method path : List Nat) (body : Option (List Nat)) :
    List Char :=
  pyUpper (bytesToHex (hmacSha256 access_key
    (access_id ++ token.getD [] ++ decimalAscii tMillis ++
      specCanonicalString method path body)))

/-- The sixteen uppercase hexadecimal digits. -/
def upperHexChars : List Char :=
  ['0', '1', '2', '3', '4', '5', '6', '7', '8', '9', 'A', 'B', 'C', 'D', 'E', 'F']

theorem Hash8.bytes_length (hv : Hash8) : hv.bytes.length = 32 := by
  simp [Hash8.bytes, wordBytes]

theorem sha256_length (msg : List Nat) : (sha256 msg).length = 32 :=
  Hash8.bytes_length _

theorem hmacSha256_length (key msg : List Nat) :
    (hmacSha256 key msg).length = 32 := by
  rw [hmacSha256]
  exact sha256_length _

theorem bytesToHex_length (bs : List Nat) :
    (bytesToHex bs).length = 2 * bs.length := by
  induction bs with
  | nil => rfl
  | cons b rest ih =>
    rw [bytesToHex, List.length_cons, List.length_cons, ih, List.length_cons]
    ring

theorem wordBytes_lt (w : Nat) : ∀ x ∈ wordBytes w, x < 256 := by
  intro x hx
  simp only [wordBytes, List.mem_cons, List.not_mem_nil, or_false] at hx
  rcases hx with h | h | h | h <;>
    (subst h; exact Nat.mod_lt _ (by norm_num))

theorem Hash8.bytes_lt (hv : Hash8) : ∀ x ∈ hv.bytes, x < 256 := by
  intro x hx
  rw [Hash8.bytes] at hx
  simp only [List.mem_append] at hx
  rcases hx with ((((((h | h) | h) | h) | h) | h) | h) | h <;>
    exact wordBytes_lt _ x h

theorem sha256_lt (msg : List Nat) : ∀ b ∈ sha256 msg, b < 256 :=
  Hash8.bytes_lt _

theorem hmacSha256_lt (key msg : List Nat) : ∀ b ∈ hmacSha256 key msg, b < 256 := by
  rw [hmacSha256]
  exact sha256_lt _

theorem hexChar_upper_mem (n : Nat) (h : n < 16) :
    Char.toUpper (hexChar n) ∈ upperHexChars := by
  interval_cases n <;> decide

theorem bytesToHex_upper_mem (bs : List Nat) (hb : ∀ b ∈ bs, b < 256) :
    ∀ c ∈ pyUpper (bytesToHex bs), c ∈ upperHexChars := by
  induction bs with
  | nil => intro c hc; cases hc
  | cons b rest ih =>
    intro c hc
    have hlt : b < 256 := hb b (by simp)
    rw [bytesToHex, pyUpper, List.map_cons, List.map_cons] at hc
    simp only [List.mem_cons] at hc
    rcases hc with h | h | h
    · exact h ▸ hexChar_upper_mem _ (Nat.div_lt_of_lt_mul (by omega))
    · exact h ▸ hexChar_upper_mem _ (Nat.mod_lt _ (by norm_num))
    · exact ih (fun x hx => hb x (by simp [hx])) c h

/-- C1: for every method, path, optional body, credentials, token and
millisecond timestamp, the Signer's output signature equals the spec's
formula — HMAC-SHA-256 keyed by the access secret over access-id +
token-or-empty + timestamp + canonical string, canonical string = method,
body hash (empty byte string when no body), empty header block and path
joined by newlines, digest uppercased — and is a 64-character uppercase
hexadecimal string.  Determinism once the clock is fixed is inherent:
`sign_request` is a pure function of these arguments. -/
theorem C1_signer (access_id access_key : List Nat) (token body : Option (List Nat))
    (tMillis : Nat) (method path : List Nat) :
    ((sign_request access_id access_key token tMillis method path body).sign =
        specSignature access_id access_key token tMillis method path body)
    ∧ (sign_request access_id access_key token tMillis method path body).sign.length = 64
    ∧ (∀ c ∈ (sign_request access_id access_key token tMillis method path body).sign,
        c ∈ upperHexChars) := by
  refine ⟨?_, ?_, ?_⟩
  · cases token <;> cases body <;> rfl
  · show (pyUpper (bytesToHex (hmacSha256 access_key _))).length = 64
    rw [pyUpper, List.length_map, bytesToHex_length, hmacSha256_length]
  · intro c hc
    exact bytesToHex_upper_mem _ (hmacSha256_lt access_key _) c hc

end FetchTuya
